import Mathlib

/-!
Verification of the session-cookie authentication subsystem of the
japan-planner application (src/auth.py, src/models.py, src/main.py).

Modelling conventions:
* `datetime` values are abstracted to an integer timeline measured in minutes,
  so `timedelta(minutes = m)` is addition of `m`; claims here only compare
  instants and add the fixed TTL, so the unit is irrelevant.
* Each call-site occurrence of `datetime.utcnow()` inside one operation is a
  single `now : Int` parameter of that operation.
* The SQL store of `SessionData` rows is a `List SessionData`;
  `select(...).where(col == v)).first()` is `List.find?`, `session.add` is an
  append, and `session.delete` of the found row erases the first row matching
  the selector (`List.eraseP`).  The surrogate `id` primary key of
  `SessionData` is never read by the subsystem and is omitted.
* `secrets.token_urlsafe(32)` is an externally supplied `token : String`
  parameter (the randomness source is outside the program).
* A FastAPI `Response` is a record of the cookie operations performed on it.
-/

/-- A cookie operation recorded on a `Response` object:
`set_cookie` (with its explicit expiry) or `delete_cookie`. -/
inductive CookieOp where
  | set (key value : String) (expires : Int)
  | delete (key : String)
deriving DecidableEq, Repr

/-- A FastAPI response, abstracted to the list of cookie operations performed
on it, in order. -/
structure Response where
  ops : List CookieOp := []
deriving DecidableEq, Repr

def Response.set_cookie (r : Response) (key value : String) (expires : Int) :
    Response :=
  { ops := r.ops ++ [CookieOp.set key value expires] }

def Response.delete_cookie (r : Response) (key : String) : Response :=
  { ops := r.ops ++ [CookieOp.delete key] }

/-- The final value of cookie `key` after replaying the response's cookie
operations: `some v` if the last operation on `key` set it to `v`, `none` if
the last operation deleted it (or no operation touched it). -/
def Response.finalCookie (r : Response) (key : String) : Option String :=
  r.ops.foldl
    (fun acc op =>
      match op with
      | CookieOp.set k v _ => if k = key then some v else acc
      | CookieOp.delete k => if k = key then none else acc)
    none

/-- An HTTP request, abstracted to its cookie jar (`request.cookies`). -/
structure Request where
  cookies : List (String × String)
deriving DecidableEq, Repr

/-- `request.cookies.get(name)` — first binding of `name` in the jar. -/
def Request.cookieGet (req : Request) (name : String) : Option String :=
  Option.map Prod.snd (req.cookies.find? (fun p => p.fst == name))

/-- The data carried by a raised `HTTPException`. -/
structure HTTPError where
  status_code : Nat
  detail : String
  headers : List (String × String)
deriving DecidableEq, Repr

/-- Modelled from the spec: the bcrypt digest produced by the passlib
`CryptContext` (section 4.1 "Password Hasher") — the passlib/bcrypt
implementation itself is not part of this repository.  Per the spec the hash
is salted and one-way; we idealize it as collision-free, so the digest
determines its salt and the image of the plaintext. -/
structure Digest where
  salt : Nat
  image : String
deriving DecidableEq, Repr

/-- Modelled from the spec: `pwd_context.hash` — a salted one-way hash; the
per-call random salt is an external parameter. -/
def get_password_hash (password : String) (salt : Nat) : Digest :=
  { salt := salt, image := password }

/-- Modelled from the spec: `pwd_context.verify` — re-hash the candidate
plaintext with the digest's salt and compare, reporting a boolean. -/
def verify_password (plain_password : String) (hashed_password : Digest) :
    Bool :=
  get_password_hash plain_password hashed_password.salt == hashed_password

/-- models.py `User` row. -/
structure User where
  id : Nat
  username : String
  password_hash : Digest
  is_admin : Bool
  created_at : Int
deriving DecidableEq, Repr

/-- models.py `SessionData` row (the unused surrogate `id` key omitted). -/
structure SessionData where
  session_id : String
  user_id : Nat
  created_at : Int
  expires_at : Int
deriving DecidableEq, Repr

def SESSION_COOKIE_NAME : String := "session_id"

/-- auth.py: `SESSION_EXPIRATION_MINUTES = 60 * 24`. -/
def SESSION_EXPIRATION_MINUTES : Int := 60 * 24

/-- The token read from the request cookie, with Python falsiness: both a
missing cookie and an empty-string cookie value make `if not session_id`
take the unauthenticated branch. -/
def cookieToken (req : Request) : Option String :=
  match req.cookieGet SESSION_COOKIE_NAME with
  | none => none
  | some s => if s = "" then none else some s

structure CreateSessionResult where
  token : String
  response : Response
  store : List SessionData
deriving DecidableEq, Repr

/-- auth.py `create_user_session`: build the row with
`expires_at = now + 24h` (`created_at` defaults to the same `utcnow`),
persist it, and set the session cookie with explicit expiry. -/
def create_user_session (response : Response) (user_id : Nat)
    (store : List SessionData) (token : String) (now : Int) :
    CreateSessionResult :=
  let expires_at := now + SESSION_EXPIRATION_MINUTES
  let session_data : SessionData :=
    { session_id := token, user_id := user_id, created_at := now,
      expires_at := expires_at }
  { token := token,
    response := response.set_cookie SESSION_COOKIE_NAME token expires_at,
    store := store ++ [session_data] }

structure InvalidateResult where
  response : Response
  store : List SessionData
deriving DecidableEq, Repr

/-- auth.py `invalidate_user_session`: if a (non-falsy) cookie token is
present and a matching row exists, delete that row; unconditionally delete
the cookie on the response. -/
def invalidate_user_session (response : Response) (req : Request)
    (store : List SessionData) : InvalidateResult :=
  let store :=
    match cookieToken req with
    | none => store
    | some t => store.eraseP (fun sd => sd.session_id == t)
  { response := response.delete_cookie SESSION_COOKIE_NAME, store := store }

structure OptionalResult where
  result : Option User
  store : List SessionData
deriving DecidableEq, Repr

/-- auth.py `get_current_user_optional`: returns the current user or `none`
without raising; performs no writes, so the store is returned unchanged. -/
def get_current_user_optional (req : Request) (store : List SessionData)
    (users : List User) (now : Int) : OptionalResult :=
  match cookieToken req with
  | none => { result := none, store := store }
  | some t =>
    match store.find? (fun sd => sd.session_id == t) with
    | none => { result := none, store := store }
    | some sd =>
      if sd.expires_at < now then
        { result := none, store := store }
      else
        { result := users.find? (fun u => u.id == sd.user_id), store := store }

deriving instance DecidableEq for Except

structure RequireResult where
  result : Except HTTPError User
  /-- The `Response()` object constructed locally inside the function on the
  no-record-or-expired branch (line 89 of auth.py); it is never returned to
  the framework and is discarded when the `HTTPException` is raised. -/
  localResponse : Response
  store : List SessionData
deriving DecidableEq, Repr

/-- auth.py `get_current_user`: the failing variant.  On a missing/empty
cookie raise 401 "Not authenticated"; if no row matches or the row is past
expiry, construct a local `Response`, delete the cookie on it, and raise 401
"Session expired or invalid"; if the owning user is missing raise 401
"User not found"; otherwise return the user.  No store writes occur. -/
def get_current_user (req : Request) (store : List SessionData)
    (users : List User) (now : Int) : RequireResult :=
  match cookieToken req with
  | none =>
    { result := Except.error
        { status_code := 401, detail := "Not authenticated",
          headers := [("WWW-Authenticate", "Bearer")] },
      localResponse := {}, store := store }
  | some t =>
    match store.find? (fun sd => sd.session_id == t) with
    | none =>
      { result := Except.error
          { status_code := 401, detail := "Session expired or invalid",
            headers := [("WWW-Authenticate", "Bearer")] },
        localResponse := Response.delete_cookie {} SESSION_COOKIE_NAME,
        store := store }
    | some sd =>
      if sd.expires_at < now then
        { result := Except.error
            { status_code := 401, detail := "Session expired or invalid",
              headers := [("WWW-Authenticate", "Bearer")] },
          localResponse := Response.delete_cookie {} SESSION_COOKIE_NAME,
          store := store }
      else
        match users.find? (fun u => u.id == sd.user_id) with
        | none =>
          { result := Except.error
              { status_code := 401, detail := "User not found",
                headers := [("WWW-Authenticate", "Bearer")] },
            localResponse := {}, store := store }
        | some user =>
          { result := Except.ok user, localResponse := {}, store := store }

/-- auth.py `get_current_active_user`: passes the resolved user through. -/
def get_current_active_user (req : Request) (store : List SessionData)
    (users : List User) (now : Int) : Except HTTPError User :=
  (get_current_user req store users now).result

/-- auth.py `get_current_admin_user`: 403 "Not an admin user" unless the
resolved user's admin flag is set. -/
def get_current_admin_user (req : Request) (store : List SessionData)
    (users : List User) (now : Int) : Except HTTPError User :=
  match get_current_active_user req store users now with
  | Except.error e => Except.error e
  | Except.ok current_user =>
    if !current_user.is_admin then
      Except.error
        { status_code := 403, detail := "Not an admin user", headers := [] }
    else
      Except.ok current_user

/-- Modelled from the spec: the HTTP framework (FastAPI) is an external
collaborator.  When a dependency raises `HTTPException`, the response
delivered to the client is built from the exception's status, detail and
headers alone; a `Response` object constructed locally inside the dependency
and never returned is discarded.  A cookie reaches (or is cleared on) the
client only through `Set-Cookie` headers of the delivered response. -/
def deliveredSetCookieHeaders (r : RequireResult) : List String :=
  match r.result with
  | Except.error e =>
    (e.headers.filter (fun p => p.fst == "Set-Cookie")).map Prod.snd
  | Except.ok _ => []

/-- main.py `register_user`: reject an already-taken username with 409;
otherwise hash the password, create the user with `is_admin = False`
(`newId` is the id the store assigns, `now` the creation instant), and open a
session for it. -/
structure RegisterResult where
  user : User
  users : List User
  store : List SessionData
  response : Response
deriving DecidableEq, Repr

def register_user (users : List User) (store : List SessionData)
    (username password : String) (salt : Nat) (newId : Nat) (token : String)
    (now : Int) (response : Response) : Except HTTPError RegisterResult :=
  match users.find? (fun u => u.username == username) with
  | some _ =>
    Except.error
      { status_code := 409, detail := "Username already registered",
        headers := [] }
  | none =>
    let hashed_password := get_password_hash password salt
    let new_user : User :=
      { id := newId, username := username, password_hash := hashed_password,
        is_admin := false, created_at := now }
    let created := create_user_session response newId store token now
    Except.ok
      { user := new_user, users := users ++ [new_user],
        store := created.store, response := created.response }

/-- The spec's per-token session-state classification (section 4.2):
`ABSENT` when no matching record exists, `ACTIVE` when `now < expires_at`,
`EXPIRED` when `now >= expires_at`.  Stated from the spec's words, for
comparison with the code's expiry test. -/
inductive SpecSessionState where
  | ABSENT
  | ACTIVE
  | EXPIRED
deriving DecidableEq, Repr

def specClassify (found : Option SessionData) (now : Int) : SpecSessionState :=
  match found with
  | none => SpecSessionState.ABSENT
  | some sd =>
    if now < sd.expires_at then SpecSessionState.ACTIVE
    else SpecSessionState.EXPIRED

/-- The session-store states reachable through the subsystem's own write
operations: the empty store, a `create_user_session` step, and an
`invalidate_user_session` step.  (`register_user` writes only through
`create_user_session`; see `register_store_reachable`.) -/
inductive ReachableStore : List SessionData → Prop where
  | nil : ReachableStore []
  | create (store : List SessionData) (response : Response) (user_id : Nat)
      (token : String) (now : Int) (h : ReachableStore store) :
      ReachableStore (create_user_session response user_id store token now).store
  | invalidate (store : List SessionData) (response : Response)
      (req : Request) (h : ReachableStore store) :
      ReachableStore (invalidate_user_session response req store).store

/-! ### Concrete fixtures used by witnesses and counterexamples -/

def immaUser : User :=
  { id := 1, username := "imma", password_hash := get_password_hash "pw1" 7,
    is_admin := true, created_at := 0 }

def tokSession : SessionData :=
  { session_id := "tok", user_id := 1, created_at := 0, expires_at := 100 }

def tokRequest : Request :=
  { cookies := [("session_id", "tok")] }

def freshSession : SessionData :=
  { session_id := "tk2", user_id := 1, created_at := 0, expires_at := 1440 }

def pedroNew : User :=
  { id := 2, username := "pedro", password_hash := get_password_hash "pw2" 3,
    is_admin := false, created_at := 10 }

def regOut : RegisterResult :=
  { user := pedroNew, users := [immaUser, pedroNew],
    store := [{ session_id := "tk2", user_id := 2, created_at := 10,
                expires_at := 1450 }],
    response := { ops := [CookieOp.set "session_id" "tk2" 1450] } }

/-! ### Helper lemmas about keyed lookup and erasure -/

theorem find_key_eq_some {α κ : Type} [BEq κ] [LawfulBEq κ] (keyf : α → κ)
    (t : κ) (l : List α) (hnd : (l.map keyf).Nodup) (x : α) (hx : x ∈ l)
    (ht : keyf x = t) : l.find? (fun a => keyf a == t) = some x := by
  induction l with
  | nil => cases hx
  | cons a l ih =>
    rw [List.map_cons, List.nodup_cons] at hnd
    cases List.mem_cons.mp hx with
    | inl h =>
      subst h
      exact List.find?_cons_of_pos l (by simp [ht])
    | inr h =>
      have hne : ¬ ((keyf a == t) = true) := by
        simp only [beq_iff_eq]
        intro he
        apply hnd.1
        rw [he, ← ht]
        exact List.mem_map_of_mem keyf h
      rw [List.find?_cons_of_neg l hne]
      exact ih hnd.2 h

theorem key_inj_of_nodup {α κ : Type} (keyf : α → κ) (l : List α)
    (hnd : (l.map keyf).Nodup) (x y : α) (hx : x ∈ l) (hy : y ∈ l)
    (hk : keyf x = keyf y) : x = y := by
  induction l with
  | nil => cases hx
  | cons a l ih =>
    rw [List.map_cons, List.nodup_cons] at hnd
    cases List.mem_cons.mp hx with
    | inl h1 =>
      cases List.mem_cons.mp hy with
      | inl h2 => rw [h1, h2]
      | inr h2 =>
        exfalso
        apply hnd.1
        rw [h1] at hk
        rw [hk]
        exact List.mem_map_of_mem keyf h2
    | inr h1 =>
      cases List.mem_cons.mp hy with
      | inl h2 =>
        exfalso
        apply hnd.1
        rw [h2] at hk
        rw [← hk]
        exact List.mem_map_of_mem keyf h1
      | inr h2 => exact ih hnd.2 h1 h2

theorem eraseP_key_not_mem {α κ : Type} [BEq κ] [LawfulBEq κ] (keyf : α → κ)
    (t : κ) (l : List α) (hnd : (l.map keyf).Nodup) :
    ∀ x ∈ l.eraseP (fun a => keyf a == t), (keyf x == t) = false := by
  induction l with
  | nil => intro x hx; cases hx
  | cons a l ih =>
    rw [List.map_cons, List.nodup_cons] at hnd
    by_cases ha : (keyf a == t) = true
    · simp only [List.eraseP_cons, ha, cond_true]
      intro x hx
      rw [beq_eq_false_iff_ne]
      intro he
      apply hnd.1
      have hat : keyf a = t := by simpa using ha
      rw [hat, ← he]
      exact List.mem_map_of_mem keyf hx
    · have haf : (keyf a == t) = false := by simpa using ha
      simp only [List.eraseP_cons, haf, cond_false]
      intro x hx
      cases List.mem_cons.mp hx with
      | inl h =>
        subst h
        simpa using ha
      | inr h => exact ih hnd.2 x h

theorem eraseP_key_idem {α κ : Type} [BEq κ] [LawfulBEq κ] (keyf : α → κ)
    (t : κ) (l : List α) (hnd : (l.map keyf).Nodup) :
    (l.eraseP (fun a => keyf a == t)).eraseP (fun a => keyf a == t) =
      l.eraseP (fun a => keyf a == t) := by
  apply List.eraseP_of_forall_not
  intro x hx
  have h := eraseP_key_not_mem keyf t l hnd x hx
  simp [h]

theorem finalCookie_delete (r : Response) (key : String) :
    (r.delete_cookie key).finalCookie key = none := by
  unfold Response.delete_cookie Response.finalCookie
  rw [List.foldl_append]
  simp

/-! ### Claim theorems -/

/-- C1: on a request whose session record exists but is expired,
`get_current_user` raises the 401 "Session expired or invalid" failure, but
the `delete_cookie` lands on the locally constructed, discarded `Response`
object: the response delivered to the client (built from the exception's
headers alone) carries no `Set-Cookie`, so the session cookie is NOT cleared
on the client, contradicting the claim's cookie-clearing half. -/
theorem require_expired_session_no_cookie_clear_delivered :
    (get_current_user tokRequest [tokSession] [immaUser] 200).result =
      Except.error
        { status_code := 401, detail := "Session expired or invalid",
          headers := [("WWW-Authenticate", "Bearer")] } ∧
    (get_current_user tokRequest [tokSession] [immaUser] 200).localResponse.ops =
      [CookieOp.delete SESSION_COOKIE_NAME] ∧
    deliveredSetCookieHeaders
      (get_current_user tokRequest [tokSession] [immaUser] 200) = [] := by
  refine ⟨?_, ?_, ?_⟩ <;> decide

/-- C2 counterexample: at `now = expires_at` exactly, the spec's state
machine classifies the looked-up session as `EXPIRED`, yet both
`get_current_user_optional` and `get_current_user` treat it as active and
return the user — refuting the claim that both resolvers treat a lookup at
`now = expires_at` as an expired session. -/
theorem session_boundary_treated_active :
    specClassify
        (List.find? (fun sd => sd.session_id == "tok") [tokSession]) 100 =
      SpecSessionState.EXPIRED ∧
    (get_current_user_optional tokRequest [tokSession] [immaUser] 100).result =
      some immaUser ∧
    (get_current_user tokRequest [tokSession] [immaUser] 100).result =
      Except.ok immaUser := by
  refine ⟨?_, ?_, ?_⟩ <;> decide

/-- C8 (amended model of the external hasher): `hash` followed by `verify`
is a correct membership test — `verify q (hash p salt)` is true exactly when
`q = p`. -/
theorem hash_verify_membership (p q : String) (salt : Nat) :
    verify_password q (get_password_hash p salt) = true ↔ q = p := by
  simp [verify_password, get_password_hash, Digest.mk.injEq]

/-- C10: `get_current_user` never mutates the session store: on every path
(missing cookie, unknown token, expired record — which is not deleted —
missing user, success) the store after the call equals the store before. -/
theorem require_does_not_mutate_store (req : Request)
    (store : List SessionData) (users : List User) (now : Int) :
    (get_current_user req store users now).store = store := by
  unfold get_current_user
  repeat' split
  all_goals rfl

/-- C2 (amended): the code classifies a looked-up session by the test
`expires_at < now` alone: the session is treated as active — both resolvers
return the user — iff `now ≤ expires_at`; `created_at` is not consulted, and
at exactly `now = expires_at` the session is still treated as active. -/
theorem session_active_iff_now_le_expires
    (store : List SessionData) (users : List User) (req : Request)
    (sd : SessionData) (u : User) (now : Int)
    (hnd : (store.map SessionData.session_id).Nodup)
    (hund : (users.map User.id).Nodup)
    (hsd : sd ∈ store) (hcookie : cookieToken req = some sd.session_id)
    (hu : u ∈ users) (huid : u.id = sd.user_id) :
    ((get_current_user_optional req store users now).result = some u ↔
      now ≤ sd.expires_at) ∧
    ((get_current_user req store users now).result = Except.ok u ↔
      now ≤ sd.expires_at) := by
  have hfind : store.find? (fun x => x.session_id == sd.session_id) = some sd :=
    find_key_eq_some SessionData.session_id sd.session_id store hnd sd hsd rfl
  have hufind : users.find? (fun x => x.id == sd.user_id) = some u :=
    find_key_eq_some User.id sd.user_id users hund u hu huid
  by_cases hlt : sd.expires_at < now
  · have h1 : (get_current_user_optional req store users now).result = none := by
      simp [get_current_user_optional, hcookie, hfind, hlt]
    have h2 : (get_current_user req store users now).result =
        Except.error
          { status_code := 401, detail := "Session expired or invalid",
            headers := [("WWW-Authenticate", "Bearer")] } := by
      simp [get_current_user, hcookie, hfind, hlt]
    rw [h1, h2]
    refine ⟨⟨fun h => ?_, fun h => ?_⟩, ⟨fun h => ?_, fun h => ?_⟩⟩
    · simp at h
    · omega
    · simp at h
    · omega
  · have h1 : (get_current_user_optional req store users now).result = some u := by
      simp [get_current_user_optional, hcookie, hfind, hlt, hufind]
    have h2 : (get_current_user req store users now).result = Except.ok u := by
      simp [get_current_user, hcookie, hfind, hlt, hufind]
    rw [h1, h2]
    exact ⟨⟨fun _ => by omega, fun _ => rfl⟩, ⟨fun _ => by omega, fun _ => rfl⟩⟩

theorem session_active_iff_now_le_expires_witness :
    ((get_current_user_optional tokRequest [tokSession] [immaUser] 100).result =
        some immaUser ↔ (100 : Int) ≤ tokSession.expires_at) ∧
    ((get_current_user tokRequest [tokSession] [immaUser] 100).result =
        Except.ok immaUser ↔ (100 : Int) ≤ tokSession.expires_at) :=
  session_active_iff_now_le_expires [tokSession] [immaUser] tokRequest
    tokSession immaUser 100 (by decide) (by decide) (by decide) (by decide)
    (by decide) (by decide)

/-- C4: whenever `get_current_user_optional` resolves a user,
`get_current_user` succeeds and returns that same user. -/
theorem require_agrees_with_resolve_optional
    (req : Request) (store : List SessionData) (users : List User)
    (now : Int) (u : User)
    (h : (get_current_user_optional req store users now).result = some u) :
    (get_current_user req store users now).result = Except.ok u := by
  cases hc : cookieToken req with
  | none => simp [get_current_user_optional, hc] at h
  | some t =>
    cases hf : store.find? (fun sd => sd.session_id == t) with
    | none => simp [get_current_user_optional, hc, hf] at h
    | some sd =>
      by_cases hlt : sd.expires_at < now
      · simp [get_current_user_optional, hc, hf, hlt] at h
      · have hu : users.find? (fun x => x.id == sd.user_id) = some u := by
          simpa [get_current_user_optional, hc, hf, hlt] using h
        simp [get_current_user, hc, hf, hlt, hu]

theorem require_agrees_with_resolve_optional_witness :
    (get_current_user_optional tokRequest [tokSession] [immaUser] 50).result =
        some immaUser ∧
    (get_current_user tokRequest [tokSession] [immaUser] 50).result =
      Except.ok immaUser :=
  ⟨by decide,
   require_agrees_with_resolve_optional tokRequest [tokSession] [immaUser] 50
     immaUser (by decide)⟩

/-- C5: when `get_current_user` resolves a user, `get_current_admin_user`
returns that user when the admin flag is set and fails with the 403
"Not an admin user" error when it is unset. -/
theorem require_admin_gates_on_admin_flag
    (req : Request) (store : List SessionData) (users : List User)
    (now : Int) (u : User)
    (h : (get_current_user req store users now).result = Except.ok u) :
    get_current_admin_user req store users now =
      (if u.is_admin then Except.ok u
       else Except.error
         { status_code := 403, detail := "Not an admin user",
           headers := [] }) := by
  unfold get_current_admin_user get_current_active_user
  rw [h]
  cases hadm : u.is_admin <;> simp [hadm]

theorem require_admin_gates_on_admin_flag_witness :
    (get_current_user tokRequest [tokSession] [immaUser] 50).result =
        Except.ok immaUser ∧
    get_current_admin_user tokRequest [tokSession] [immaUser] 50 =
      (if immaUser.is_admin then Except.ok immaUser
       else Except.error
         { status_code := 403, detail := "Not an admin user",
           headers := [] }) :=
  ⟨by decide,
   require_admin_gates_on_admin_flag tokRequest [tokSession] [immaUser] 50
     immaUser (by decide)⟩

/-- C3 counterexample: with a matching record that the spec's state machine
classifies as `EXPIRED` (lookup at `now = expires_at`) and its owning user
present, `get_current_user_optional` does not return none — it returns the
user — so "returns none exactly in these cases" fails for the spec's notion
of an expired record. -/
theorem resolve_optional_spec_expired_returns_user :
    specClassify
        (List.find? (fun sd => sd.session_id == "tok") [tokSession]) 100 =
      SpecSessionState.EXPIRED ∧
    (get_current_user_optional tokRequest [tokSession] [immaUser] 100).result ≠
      none := by
  refine ⟨by decide, by decide⟩

/-- C3 (amended): `get_current_user_optional` never mutates the store, and
returns `some u` exactly when the request carries a non-empty session cookie
whose token matches a stored record with `now ≤ expires_at` owned by `u`;
it returns none exactly in the remaining cases: no (or empty) cookie,
unknown token, record with `expires_at` strictly before `now`, or missing
owning user. -/
theorem resolve_optional_characterization
    (req : Request) (store : List SessionData) (users : List User)
    (now : Int) (u : User)
    (hnd : (store.map SessionData.session_id).Nodup)
    (hund : (users.map User.id).Nodup) :
    (get_current_user_optional req store users now).store = store ∧
    ((get_current_user_optional req store users now).result = some u ↔
      ∃ t, cookieToken req = some t ∧
        ∃ sd, sd ∈ store ∧ sd.session_id = t ∧ now ≤ sd.expires_at ∧
          u ∈ users ∧ u.id = sd.user_id) := by
  constructor
  · unfold get_current_user_optional
    repeat' split
    all_goals rfl
  · cases hc : cookieToken req with
    | none =>
      have h1 : (get_current_user_optional req store users now).result =
          none := by
        simp [get_current_user_optional, hc]
      rw [h1]
      constructor
      · intro h; simp at h
      · rintro ⟨t, ht, -⟩
        simp at ht
    | some t =>
      cases hf : store.find? (fun sd => sd.session_id == t) with
      | none =>
        have hnone := List.find?_eq_none.mp hf
        have h1 : (get_current_user_optional req store users now).result =
            none := by
          simp [get_current_user_optional, hc, hf]
        rw [h1]
        constructor
        · intro h; simp at h
        · rintro ⟨t2, ht2, sd, hmem, hkey, -, -, -⟩
          have ht2e : t2 = t := (Option.some.inj ht2).symm
          subst ht2e
          exact absurd (by simp [hkey]) (hnone sd hmem)
      | some sd =>
        have hsdmem := List.mem_of_find?_eq_some hf
        have hsdkey : sd.session_id = t := by
          have hp := List.find?_some hf
          simpa using hp
        by_cases hlt : sd.expires_at < now
        · have h1 : (get_current_user_optional req store users now).result =
              none := by
            simp [get_current_user_optional, hc, hf, hlt]
          rw [h1]
          constructor
          · intro h; simp at h
          · rintro ⟨t2, ht2, sd2, hmem2, hkey2, hle2, -, -⟩
            have ht2e : t2 = t := (Option.some.inj ht2).symm
            subst ht2e
            have hsde : sd2 = sd :=
              key_inj_of_nodup SessionData.session_id store hnd sd2 sd hmem2
                hsdmem (by rw [hkey2, hsdkey])
            subst hsde
            exact absurd hle2 (by omega)
        · have h1 : (get_current_user_optional req store users now).result =
              users.find? (fun x => x.id == sd.user_id) := by
            simp [get_current_user_optional, hc, hf, hlt]
          rw [h1]
          constructor
          · intro h
            have humem := List.mem_of_find?_eq_some h
            have huid : u.id = sd.user_id := by
              have hp := List.find?_some h
              simpa using hp
            exact ⟨t, rfl, sd, hsdmem, hsdkey, by omega, humem, huid⟩
          · rintro ⟨t2, ht2, sd2, hmem2, hkey2, hle2, hmu2, hid2⟩
            have ht2e : t2 = t := (Option.some.inj ht2).symm
            subst ht2e
            have hsde : sd2 = sd :=
              key_inj_of_nodup SessionData.session_id store hnd sd2 sd hmem2
                hsdmem (by rw [hkey2, hsdkey])
            subst hsde
            exact find_key_eq_some User.id _ users hund u hmu2 hid2

theorem resolve_optional_characterization_witness :
    (get_current_user_optional tokRequest [tokSession] [immaUser] 50).result =
      some immaUser :=
  (resolve_optional_characterization tokRequest [tokSession] [immaUser] 50
      immaUser (by decide) (by decide)).2.mpr
    ⟨"tok", by decide, tokSession, by decide, by decide, by decide, by decide,
      by decide⟩

/-- C6: `invalidate_user_session` is idempotent.  Under the store's token
uniqueness invariant, calling it twice in a row yields the same store as
calling it once and both calls leave the final session-cookie state cleared;
the operation is total (it never fails, also with no cookie or no matching
record), and after a call with a cookie token present no record with that
token remains in the store. -/
theorem end_session_idempotent (response : Response) (req : Request)
    (store : List SessionData)
    (hnd : (store.map SessionData.session_id).Nodup) :
    (invalidate_user_session
        (invalidate_user_session response req store).response req
        (invalidate_user_session response req store).store).store =
      (invalidate_user_session response req store).store ∧
    (invalidate_user_session
        (invalidate_user_session response req store).response req
        (invalidate_user_session response req store).store).response.finalCookie
        SESSION_COOKIE_NAME = none ∧
    (invalidate_user_session response req store).response.finalCookie
      SESSION_COOKIE_NAME = none ∧
    (match cookieToken req with
     | none => (invalidate_user_session response req store).store = store
     | some t =>
       List.find? (fun sd => sd.session_id == t)
         (invalidate_user_session response req store).store = none) := by
  refine ⟨?_, ?_, ?_, ?_⟩
  · cases hc : cookieToken req with
    | none => simp [invalidate_user_session, hc]
    | some t =>
      simp only [invalidate_user_session, hc]
      exact eraseP_key_idem SessionData.session_id t store hnd
  · exact finalCookie_delete _ _
  · exact finalCookie_delete _ _
  · cases hc : cookieToken req with
    | none => simp [invalidate_user_session, hc]
    | some t =>
      simp only [invalidate_user_session, hc]
      rw [List.find?_eq_none]
      intro x hx
      have h := eraseP_key_not_mem SessionData.session_id t store hnd x hx
      simp [h]

theorem end_session_idempotent_witness :
    (invalidate_user_session
        (invalidate_user_session {} tokRequest [tokSession]).response tokRequest
        (invalidate_user_session {} tokRequest [tokSession]).store).store =
      (invalidate_user_session {} tokRequest [tokSession]).store ∧
    (invalidate_user_session
        (invalidate_user_session {} tokRequest [tokSession]).response tokRequest
        (invalidate_user_session {} tokRequest
            [tokSession]).store).response.finalCookie
        SESSION_COOKIE_NAME = none ∧
    (invalidate_user_session {} tokRequest [tokSession]).response.finalCookie
      SESSION_COOKIE_NAME = none ∧
    (match cookieToken tokRequest with
     | none =>
       (invalidate_user_session {} tokRequest [tokSession]).store = [tokSession]
     | some t =>
       List.find? (fun sd => sd.session_id == t)
         (invalidate_user_session {} tokRequest [tokSession]).store = none) :=
  end_session_idempotent {} tokRequest [tokSession] (by decide)

/-- Any store produced from a reachable store by a successful `register_user`
call is itself reachable: registration writes to the session store only
through `create_user_session`. -/
theorem register_store_reachable (users : List User)
    (store : List SessionData) (username password : String) (salt newId : Nat)
    (token : String) (now : Int) (response : Response) (out : RegisterResult)
    (h : ReachableStore store)
    (hok : register_user users store username password salt newId token now
        response = Except.ok out) :
    ReachableStore out.store := by
  unfold register_user at hok
  cases hfind : users.find? (fun u => u.username == username) with
  | some w => rw [hfind] at hok; simp at hok
  | none =>
    rw [hfind] at hok
    simp only [Except.ok.injEq] at hok
    subst hok
    exact ReachableStore.create store response newId token now h

/-- C7: every record of any reachable session store satisfies
`expires_at = created_at + SESSION_EXPIRATION_MINUTES` (the fixed 24-hour
TTL): the equation is established by `create_user_session` and preserved by
deletion. -/
theorem session_ttl_invariant (store : List SessionData)
    (h : ReachableStore store) :
    ∀ sd ∈ store,
      sd.expires_at = sd.created_at + SESSION_EXPIRATION_MINUTES := by
  induction h with
  | nil => intro sd hsd; cases hsd
  | create store response user_id token now h ih =>
    intro sd hsd
    simp only [create_user_session] at hsd
    rcases List.mem_append.mp hsd with h1 | h1
    · exact ih sd h1
    · rw [List.mem_singleton.mp h1]
  | invalidate store response req h ih =>
    intro sd hsd
    simp only [invalidate_user_session] at hsd
    cases hc : cookieToken req with
    | none => rw [hc] at hsd; exact ih sd hsd
    | some t =>
      rw [hc] at hsd
      exact ih sd (List.mem_of_mem_eraseP hsd)

theorem session_ttl_invariant_witness :
    freshSession.expires_at =
      freshSession.created_at + SESSION_EXPIRATION_MINUTES := by
  have h0 := ReachableStore.create [] {} 1 "tk2" 0 ReachableStore.nil
  have he : (create_user_session {} 1 [] "tk2" 0).store = [freshSession] := by
    decide
  rw [he] at h0
  exact session_ttl_invariant [freshSession] h0 freshSession (by decide)

/-- C9: a successful `register_user` appends exactly one new user to the
user table, and that user's admin flag is unset — the public registration
interface can never create an admin user. -/
theorem register_creates_only_non_admin (users : List User)
    (store : List SessionData) (username password : String) (salt newId : Nat)
    (token : String) (now : Int) (response : Response) (out : RegisterResult)
    (hok : register_user users store username password salt newId token now
        response = Except.ok out) :
    out.user.is_admin = false ∧ out.users = users ++ [out.user] := by
  unfold register_user at hok
  cases hfind : users.find? (fun u => u.username == username) with
  | some w => rw [hfind] at hok; simp at hok
  | none =>
    rw [hfind] at hok
    simp only [Except.ok.injEq] at hok
    subst hok
    exact ⟨rfl, rfl⟩

theorem register_creates_only_non_admin_witness :
    regOut.user.is_admin = false ∧
    regOut.users = [immaUser] ++ [regOut.user] :=
  register_creates_only_non_admin [immaUser] [] "pedro" "pw2" 3 2 "tk2" 10 {}
    regOut (by decide)
